import Mathlib

/-!
Shallow embedding of the frame-relay servers of this repository
(src/websocket-frame-server.js primarily; src/syphon-server-fixed.js shares
the payload-classification logic).

Modelling conventions:
* byte strings are lists of naturals (each conceptually below 256);
* JavaScript strings are modelled by their UTF-8 bytes.  Every payload the
  server inspects textually (the "data:image/..." URIs) is ASCII, where the
  JavaScript string length coincides with the byte length, and the comma
  search and the startsWith checks operate bytewise exactly as in the source;
* the sharp image library is an external dependency; it is modelled as an
  abstract Codec record, one field per encoding entry point the source uses,
  each returning either encoded bytes or a failure (a thrown exception in the
  source, None here);
* the status strings written to the lastFrameType variable are modelled as an
  enumeration, one constructor per distinct string the source assigns.
-/

namespace FrameServer

/-- The output image formats the server knows: "png", "webp", "jpeg". -/
inductive Format
  | png
  | webp
  | jpeg
deriving DecidableEq, Repr

/-- Byte strings. -/
abbrev Bytes := List Nat

/-- The mutable CONFIG object of websocket-frame-server.js (the fields the
claims are about: outputFormat, quality, maxFrameSize). -/
structure Config where
  outputFormat : Format
  quality : Int
  maxFrameSize : Nat
deriving DecidableEq, Repr

/-- Compiled-in defaults: format png, quality 90, max payload 50 MB. -/
def defaultConfig : Config :=
  { outputFormat := .png, quality := 90, maxFrameSize := 50 * 1024 * 1024 }

/-- The values the lastFrameType status variable takes, one constructor per
distinct string the source assigns ("waiting...", "raw buffer",
"frame too large", success and error messages, "unknown format",
"buffer cleared"). -/
inductive FrameStatus
  | waiting
  | rawBuffer
  | frameTooLarge
  | dataUriOk (f : Format)
  | conversionError
  | rawBufferOk (f : Format)
  | rawBufferError
  | unknownFormat
  | bufferCleared
deriving DecidableEq, Repr

/-- An encoded frame held by the store: the byte buffer the source keeps in
latestFrameBuffer, plus (as specification-level bookkeeping) the format it was
encoded to, which is the configured outputFormat at encoding time.  The tag
does not influence any behaviour of the embedded code, which only stores the
buffer. -/
structure EncodedFrame where
  bytes : Bytes
  format : Format
deriving DecidableEq, Repr

/-- The process-wide mutable state of websocket-frame-server.js. -/
structure ServerState where
  latestFrameBuffer : Option EncodedFrame
  frameCount : Nat
  clientCount : Int
  bytesReceived : Nat
  lastFrameType : FrameStatus
  serverStartTime : Nat
  connectionErrors : Nat
  config : Config
deriving DecidableEq, Repr

/-- The sharp image library, abstracted: encPng models
sharp(buf).png with a compressionLevel argument, encWebp and encJpeg model
sharp(buf).webp and sharp(buf).jpeg with a quality argument, and toFormat
models sharp(buf).toFormat(format, quality) as used by the serving endpoint.
A None result models a thrown conversion error. -/
structure Codec where
  encPng : Bytes → Nat → Option Bytes
  encWebp : Bytes → Int → Option Bytes
  encJpeg : Bytes → Int → Option Bytes
  toFormat : Bytes → Format → Int → Option Bytes

/-- An incoming WebSocket message: a binary buffer or a text string
(modelled by its bytes). -/
inductive RawMessage
  | binary (b : Bytes)
  | text (s : Bytes)
deriving DecidableEq, Repr

/-- The ASCII bytes of "data:image". -/
def dataImageSig : Bytes := [100, 97, 116, 97, 58, 105, 109, 97, 103, 101]

/-- The data-URL signature test of websocket-frame-server.js line 310:
data.length > 10 and the first FOUR bytes equal the ASCII bytes of "data"
(0x64 0x61 0x74 0x61). -/
def hasDataSig (b : Bytes) : Bool :=
  decide (10 < b.length) && (b.getD 0 0 == 100) && (b.getD 1 0 == 97) &&
    (b.getD 2 0 == 116) && (b.getD 3 0 == 97)

/-- Everything after the first comma, None when there is no comma
(44 is the ASCII comma). -/
def afterCommaAux : Bytes → Option Bytes
  | [] => none
  | c :: cs => if c = 44 then some cs else afterCommaAux cs

/-- The base64 extraction of lines 333-334:
dataString.substring(dataString.indexOf(",") + 1).  When no comma is present,
indexOf gives -1 and substring(0) returns the WHOLE string. -/
def extractBase64 (s : Bytes) : Bytes := (afterCommaAux s).getD s

/-- The value of one base64 alphabet character, None for characters outside
the alphabet. -/
def b64val (c : Nat) : Option Nat :=
  if 65 ≤ c ∧ c ≤ 90 then some (c - 65)
  else if 97 ≤ c ∧ c ≤ 122 then some (c - 97 + 26)
  else if 48 ≤ c ∧ c ≤ 57 then some (c - 48 + 52)
  else if c = 43 then some 62
  else if c = 47 then some 63
  else none

/-- Collect the sextet values of a byte string the way the Node.js base64
decoder does: characters outside the alphabet are skipped, an equals sign
(61) terminates the input. -/
def b64sextets : Bytes → List Nat
  | [] => []
  | c :: cs =>
    if c = 61 then []
    else
      match b64val c with
      | some v => v :: b64sextets cs
      | none => b64sextets cs

/-- Reassemble bytes from sextets: each full group of four sextets yields
three bytes, a trailing group of three yields two, of two yields one, and a
single trailing sextet is dropped, as in the Node.js decoder. -/
def b64group : List Nat → Bytes
  | a :: b :: c :: d :: rest =>
    (a * 4 + b / 16) :: ((b % 16) * 16 + c / 4) :: ((c % 4) * 64 + d) :: b64group rest
  | [a, b, c] => [a * 4 + b / 16, (b % 16) * 16 + c / 4]
  | [a, b] => [a * 4 + b / 16]
  | _ => []

/-- The model of Buffer.from(s, "base64"): a total, lenient decode.
It never throws. -/
def b64decode (s : Bytes) : Bytes := b64group (b64sextets s)

/-- The conversion block of lines 342-348 (and 365-371): dispatch on the
configured output format; webp and jpeg receive the configured quality, png
receives the fixed compressionLevel 6 and no quality. -/
def encodeToFormat (c : Codec) (cfg : Config) (buf : Bytes) : Option Bytes :=
  match cfg.outputFormat with
  | .webp => c.encWebp buf cfg.quality
  | .jpeg => c.encJpeg buf cfg.quality
  | .png => c.encPng buf 6

/-- frameCount++ at the top of the message handler (line 303). -/
def bumpFrame (s : ServerState) : ServerState :=
  { s with frameCount := s.frameCount + 1 }

/-- Lines 330-356: the body of the data-URI branch after the size check
passed and bytesReceived was already incremented: base64-decode everything
after the first comma, feed it to the configured encoder; on success store
the result, on a conversion error record the error status. -/
def processBase64Body (c : Codec) (s : ServerState) (ds : Bytes) : ServerState :=
  match encodeToFormat c s.config (b64decode (extractBase64 ds)) with
  | some out =>
    { s with
      latestFrameBuffer := some { bytes := out, format := s.config.outputFormat },
      lastFrameType := .dataUriOk s.config.outputFormat }
  | none => { s with lastFrameType := .conversionError }

/-- Lines 322-356 and 380-383, the handling of a message that was converted
to a string: if it starts with "data:image", apply the size ceiling
(reject strictly larger than maxFrameSize, before any decode), otherwise
count its bytes and process the base64 body; a string without the
"data:image" start falls through to the unknown-format status (the buffer
variable is null on this path). -/
def processDataString (c : Codec) (s : ServerState) (ds : Bytes) : ServerState :=
  if ds.take 10 = dataImageSig then
    if s.config.maxFrameSize < ds.length then
      { s with lastFrameType := .frameTooLarge }
    else
      processBase64Body c { s with bytesReceived := s.bytesReceived + ds.length } ds
  else { s with lastFrameType := .unknownFormat }

/-- Lines 358-379, the raw-buffer branch: bytesReceived is incremented by the
buffer length with NO size check, then the buffer goes unchanged into the
configured encoder; success stores the result, failure records the raw-buffer
error status. -/
def processRawBuffer (c : Codec) (s : ServerState) (buf : Bytes) : ServerState :=
  match encodeToFormat c s.config buf with
  | some out =>
    { s with
      bytesReceived := s.bytesReceived + buf.length,
      latestFrameBuffer := some { bytes := out, format := s.config.outputFormat },
      lastFrameType := .rawBufferOk s.config.outputFormat }
  | none =>
    { s with
      bytesReceived := s.bytesReceived + buf.length,
      lastFrameType := .rawBufferError }

/-- The whole message handler (lines 301-390): bump frameCount, then classify:
a binary message with the data signature is converted to a string, a binary
message without it becomes the raw buffer (transiently recording the
"raw buffer" status as line 315 does), a text message is used as the string
directly.  Nothing in the embedded semantics throws, so the outer catch of
line 385 is unreachable here; transport errors are a separate operation. -/
def ingest (c : Codec) (s : ServerState) (m : RawMessage) : ServerState :=
  match m with
  | .text ds => processDataString c (bumpFrame s) ds
  | .binary b =>
    if hasDataSig b then processDataString c (bumpFrame s) b
    else processRawBuffer c { bumpFrame s with lastFrameType := .rawBuffer } b

/-- An HTTP response: status code and body bytes. -/
structure HttpResponse where
  status : Nat
  body : Bytes
deriving DecidableEq, Repr

/-- The 33-byte buffer of lines 287-290, served when no (large enough) frame
is stored: the PNG signature followed by an IHDR chunk for a 1-by-1 image,
and nothing else. -/
def emptyFrame : Bytes :=
  [137, 80, 78, 71, 13, 10, 26, 10, 0, 0, 0, 13, 73, 72, 68, 82,
   0, 0, 0, 1, 0, 0, 0, 1, 8, 2, 0, 0, 0, 144, 119, 83, 222]

/-- The format path parameter, validated against ["png", "webp", "jpeg"]. -/
def formatOfParam : String → Option Format
  | "png" => some Format.png
  | "webp" => some Format.webp
  | "jpeg" => some Format.jpeg
  | _ => none

/-- GET /frame.:format (lines 263-293).  An unknown format parameter gives a
400 (body modelled as empty).  A stored buffer longer than 100 bytes is
served: verbatim when the requested format equals the configured
outputFormat, otherwise transcoded through the codec with fallback to the
stored bytes when the transcode fails.  Otherwise the placeholder is sent
with status 200. -/
def serveFrame (c : Codec) (s : ServerState) (p : String) : HttpResponse :=
  match formatOfParam p with
  | none => { status := 400, body := [] }
  | some f =>
    match s.latestFrameBuffer with
    | some fr =>
      if 100 < fr.bytes.length then
        if f ≠ s.config.outputFormat then
          match c.toFormat fr.bytes f s.config.quality with
          | some out => { status := 200, body := out }
          | none => { status := 200, body := fr.bytes }
        else { status := 200, body := fr.bytes }
      else { status := 200, body := emptyFrame }
    | none => { status := 200, body := emptyFrame }

/-- The JSON body of a POST /config request: both fields optional. -/
structure ConfigBody where
  outputFormat : Option String
  quality : Option Int
deriving DecidableEq, Repr

/-- The allowed output format names. -/
def validFormatNames : List String := ["png", "webp", "jpeg"]

/-- Lines 245-247: if req.body.outputFormat is truthy (a nonempty string)
and is one of the allowed names, store it; otherwise leave the stored value
alone. -/
def mergeFormat (cfg : Config) (o : Option String) : Config :=
  match o with
  | some f =>
    if f ≠ "" ∧ f ∈ validFormatNames then
      { cfg with outputFormat := (formatOfParam f).getD cfg.outputFormat }
    else cfg
  | none => cfg

/-- Lines 248-250: if req.body.quality is truthy (nonzero) and lies in
[10, 100], store it; otherwise leave the stored value alone. -/
def mergeQuality (cfg : Config) (o : Option Int) : Config :=
  match o with
  | some q => if q ≠ 0 ∧ 10 ≤ q ∧ q ≤ 100 then { cfg with quality := q } else cfg
  | none => cfg

/-- POST /config (lines 244-252): each field is checked independently; the
response echoes the CONFIG object after the merge. -/
def postConfig (s : ServerState) (b : ConfigBody) : ServerState × Config :=
  let cfg2 := mergeQuality (mergeFormat s.config b.outputFormat) b.quality
  ({ s with config := cfg2 }, cfg2)

/-- POST /clear (lines 254-260): null the buffer, zero frameCount and
bytesReceived, set the status text to "buffer cleared". -/
def postClear (s : ServerState) : ServerState :=
  { s with
    latestFrameBuffer := none,
    frameCount := 0,
    bytesReceived := 0,
    lastFrameType := .bufferCleared }

/-- The state-mutating operations of the server: a WebSocket message, the
clear and config endpoints, a connection opening or closing, and a WebSocket
transport error (connectionErrors++ of line 398). -/
inductive Op
  | message (m : RawMessage)
  | clear
  | config (b : ConfigBody)
  | connect
  | disconnect
  | wsError
deriving DecidableEq, Repr

/-- One step of the shared server state under an operation. -/
def applyOp (c : Codec) (s : ServerState) : Op → ServerState
  | .message m => ingest c s m
  | .clear => postClear s
  | .config b => (postConfig s b).1
  | .connect => { s with clientCount := s.clientCount + 1 }
  | .disconnect => { s with clientCount := s.clientCount - 1 }
  | .wsError => { s with connectionErrors := s.connectionErrors + 1 }

/-- Read a big-endian 32-bit word off the front of a byte string. -/
def readBE32 : Bytes → Option (Nat × Bytes)
  | a :: b :: c :: d :: rest => some (((a * 256 + b) * 256 + c) * 256 + d, rest)
  | _ => none

/-- The 8-byte PNG signature. -/
def pngSig : Bytes := [137, 80, 78, 71, 13, 10, 26, 10]

/-- ASCII chunk type "IHDR". -/
def ihdrType : Bytes := [73, 72, 68, 82]

/-- ASCII chunk type "IDAT". -/
def idatType : Bytes := [73, 68, 65, 84]

/-- ASCII chunk type "IEND". -/
def iendType : Bytes := [73, 69, 78, 68]

/-- Parse a PNG chunk sequence (length, type, data, crc per chunk), returning
the list of chunk types when the bytes are consumed exactly; fuel bounds the
recursion. -/
def parseChunkTypes : Nat → Bytes → Option (List Bytes)
  | _, [] => some []
  | 0, _ :: _ => none
  | fuel + 1, bs =>
    match readBE32 bs with
    | none => none
    | some (len, rest) =>
      if 4 + len + 4 ≤ rest.length then
        match parseChunkTypes fuel (rest.drop (4 + len + 4)) with
        | some tys => some (rest.take 4 :: tys)
        | none => none
      else none

/-- A necessary structural condition for a byte string to be a valid PNG
stream: the PNG signature, a cleanly parsing chunk sequence starting with
IHDR and ending with IEND, and at least one IDAT chunk.  (Full validity also
needs correct CRCs and field contents, so anything failing this check is a
fortiori not a valid PNG.) -/
def pngWellFormed (b : Bytes) : Bool :=
  (b.take 8 == pngSig) &&
    match parseChunkTypes b.length (b.drop 8) with
    | some tys =>
      (tys.head? == some ihdrType) && (tys.getLast? == some iendType) &&
        decide (idatType ∈ tys)
    | none => false

/-- A codec for concrete evaluations: every encoder succeeds and returns its
input bytes unchanged. -/
def cTriv : Codec :=
  { encPng := fun b _ => some b
    encWebp := fun b _ => some b
    encJpeg := fun b _ => some b
    toFormat := fun b _ _ => some b }

/-- The initial server state (lines 31-37): empty store, zero counters,
status "waiting...", default CONFIG. -/
def st0 : ServerState :=
  { latestFrameBuffer := none
    frameCount := 0
    clientCount := 0
    bytesReceived := 0
    lastFrameType := .waiting
    serverStartTime := 0
    connectionErrors := 0
    config := defaultConfig }

/-- A stored frame below the serving threshold, for concrete evaluations. -/
def tinyFrame : EncodedFrame := { bytes := [1, 2, 3], format := .png }

/-- A state holding the tiny stored frame. -/
def stTiny : ServerState := { st0 with latestFrameBuffer := some tinyFrame }

/-- A stored frame above the serving threshold. -/
def bigFrame : EncodedFrame := { bytes := List.replicate 101 7, format := .png }

/-- A state holding the big stored frame. -/
def stBig : ServerState := { st0 with latestFrameBuffer := some bigFrame }

/-- Helper: with a valid format parameter and a stored frame of more than
100 bytes, the frame endpoint answers 200 with the stored bytes when the
requested format equals the configured one, and otherwise with the transcode
result, falling back to the stored bytes when the transcode fails. -/
theorem serveFrame_stored_big (c : Codec) (s : ServerState) (fr : EncodedFrame)
    (p : String) (f : Format) (hp : formatOfParam p = some f)
    (hs : s.latestFrameBuffer = some fr) (hlen : 100 < fr.bytes.length) :
    serveFrame c s p =
      { status := 200
        body :=
          if f = s.config.outputFormat then fr.bytes
          else
            match c.toFormat fr.bytes f s.config.quality with
            | some out => out
            | none => fr.bytes } := by
  unfold serveFrame
  rw [hp, hs]
  simp only [if_pos hlen]
  by_cases hf : f = s.config.outputFormat
  · simp [hf]
  · simp only [hf, if_false, ne_eq, not_false_iff, if_true, if_neg]
    cases c.toFormat fr.bytes f s.config.quality <;> simp [hf]

/-- Helper: with a valid format parameter and a stored frame of at most
100 bytes, the frame endpoint answers 200 with the placeholder. -/
theorem serveFrame_stored_small (c : Codec) (s : ServerState) (fr : EncodedFrame)
    (p : String) (f : Format) (hp : formatOfParam p = some f)
    (hs : s.latestFrameBuffer = some fr) (hlen : fr.bytes.length ≤ 100) :
    serveFrame c s p = { status := 200, body := emptyFrame } := by
  unfold serveFrame
  rw [hp, hs]
  simp [Nat.not_lt.mpr hlen]

/-- Helper: with a valid format parameter the frame endpoint always answers
status 200, whatever the state and codec. -/
theorem serveFrame_status_ok (c : Codec) (s : ServerState) (p : String)
    (f : Format) (hp : formatOfParam p = some f) :
    (serveFrame c s p).status = 200 := by
  unfold serveFrame
  rw [hp]
  cases hs : s.latestFrameBuffer with
  | none => rfl
  | some fr =>
    by_cases hlen : 100 < fr.bytes.length
    · simp only [if_pos hlen]
      by_cases hf : f = s.config.outputFormat
      · simp [hf]
      · simp only [hf, ne_eq, not_false_iff, if_true, if_neg]
        cases c.toFormat fr.bytes f s.config.quality <;> simp [hf]
    · simp [hlen]

/-- Claim C1, counterexample: a non-empty Frame Store whose frame is in the
requested format is NOT always served verbatim — a stored frame of at most
100 bytes is replaced by the placeholder.  Here the store holds a 3-byte
frame in the configured format png, yet GET /frame.png returns the
placeholder, not the stored bytes. -/
theorem claim1_counterexample :
    stTiny.latestFrameBuffer = some tinyFrame ∧
    tinyFrame.format = stTiny.config.outputFormat ∧
    (serveFrame cTriv stTiny "png").body ≠ tinyFrame.bytes ∧
    (serveFrame cTriv stTiny "png").body = emptyFrame := by decide

/-- Claim C1, amended: for GET /frame.F with F valid and a stored frame of
MORE than 100 bytes, the response is 200 and the body is the stored bytes
verbatim when F equals the configured outputFormat (the format the frame was
encoded to), and otherwise the transcode of the stored bytes to F, falling
back to the stored bytes unchanged when that transcode fails. -/
theorem claim1_theorem (c : Codec) (s : ServerState) (fr : EncodedFrame)
    (p : String) (f : Format) (hp : formatOfParam p = some f)
    (hs : s.latestFrameBuffer = some fr) (hlen : 100 < fr.bytes.length) :
    (serveFrame c s p).status = 200 ∧
    (serveFrame c s p).body =
      (if f = s.config.outputFormat then fr.bytes
       else
         match c.toFormat fr.bytes f s.config.quality with
         | some out => out
         | none => fr.bytes) := by
  rw [serveFrame_stored_big c s fr p f hp hs hlen]
  exact ⟨rfl, rfl⟩

/-- Witness for claim C1 at a concrete input: a 101-byte stored png frame,
GET /frame.png. -/
theorem claim1_witness :
    formatOfParam "png" = some Format.png ∧
    stBig.latestFrameBuffer = some bigFrame ∧
    100 < bigFrame.bytes.length ∧
    ((serveFrame cTriv stBig "png").status = 200 ∧
      (serveFrame cTriv stBig "png").body =
        (if Format.png = stBig.config.outputFormat then bigFrame.bytes
         else
           match cTriv.toFormat bigFrame.bytes Format.png stBig.config.quality with
           | some out => out
           | none => bigFrame.bytes)) :=
  ⟨by decide, by decide, by decide,
    claim1_theorem cTriv stBig bigFrame "png" Format.png (by decide) (by decide)
      (by decide)⟩

/-- Claim C10: a stored frame of at most 100 bytes is served as the built-in
placeholder; the stored frame itself (verbatim or transcoded) is what is
served exactly when its length strictly exceeds 100 bytes. -/
theorem claim10_theorem (c : Codec) (s : ServerState) (fr : EncodedFrame)
    (p : String) (f : Format) (hp : formatOfParam p = some f)
    (hs : s.latestFrameBuffer = some fr) :
    (fr.bytes.length ≤ 100 → (serveFrame c s p).body = emptyFrame) ∧
    (100 < fr.bytes.length →
      (serveFrame c s p).body =
        (if f = s.config.outputFormat then fr.bytes
         else
           match c.toFormat fr.bytes f s.config.quality with
           | some out => out
           | none => fr.bytes)) := by
  constructor
  · intro h
    rw [serveFrame_stored_small c s fr p f hp hs h]
  · intro h
    rw [serveFrame_stored_big c s fr p f hp hs h]

/-- Witness for claim C10 at a concrete input: the 3-byte stored frame is
served as the placeholder. -/
theorem claim10_witness :
    formatOfParam "png" = some Format.png ∧
    stTiny.latestFrameBuffer = some tinyFrame ∧
    tinyFrame.bytes.length ≤ 100 ∧
    (serveFrame cTriv stTiny "png").body = emptyFrame :=
  ⟨by decide, by decide, by decide,
    (claim10_theorem cTriv stTiny tinyFrame "png" Format.png (by decide)
        (by decide)).1 (by decide)⟩

/-- Claim C6: for the three valid formats the frame endpoint never answers an
HTTP error status, whatever the state and codec; on the empty store GET
/frame.png answers 200 with the 33-byte placeholder; but that placeholder is
NOT a well-formed PNG stream: it is the PNG signature plus a lone IHDR chunk,
with no IDAT and no IEND, so the promise of a minimal VALID png placeholder
is broken by the code. -/
theorem claim6_theorem :
    (∀ (c : Codec) (s : ServerState),
      (serveFrame c s "png").status = 200 ∧
      (serveFrame c s "webp").status = 200 ∧
      (serveFrame c s "jpeg").status = 200) ∧
    (∀ c : Codec, serveFrame c st0 "png" = { status := 200, body := emptyFrame }) ∧
    pngWellFormed emptyFrame = false := by
  refine ⟨fun c s => ⟨?_, ?_, ?_⟩, fun c => rfl, by decide⟩
  · exact serveFrame_status_ok c s "png" Format.png (by decide)
  · exact serveFrame_status_ok c s "webp" Format.webp (by decide)
  · exact serveFrame_status_ok c s "jpeg" Format.jpeg (by decide)

/-- Helper: the data-signature test of the message handler is precisely
"longer than 10 bytes and the first four bytes are the ASCII of data". -/
theorem hasDataSig_iff (b : Bytes) :
    hasDataSig b = true ↔ 10 < b.length ∧ b.take 4 = [100, 97, 116, 97] := by
  match b with
  | [] => simp [hasDataSig]
  | [b0] => simp [hasDataSig]
  | [b0, b1] => simp [hasDataSig]
  | [b0, b1, b2] => simp [hasDataSig]
  | b0 :: b1 :: b2 :: b3 :: rest =>
    simp only [hasDataSig, List.getD, Bool.and_eq_true, decide_eq_true_eq,
      beq_iff_eq, List.take, List.length_cons, List.getD_cons_zero,
      List.getD_cons_succ, List.cons.injEq, and_true]
    constructor
    · rintro ⟨⟨⟨⟨h10, h0⟩, h1⟩, h2⟩, h3⟩
      exact ⟨h10, h0, h1, h2, h3⟩
    · rintro ⟨h10, h0, h1, h2, h3⟩
      exact ⟨⟨⟨⟨h10, h0⟩, h1⟩, h2⟩, h3⟩

/-- The five bytes of "data:" — the signature claim C3 says is checked. -/
def dataColonSig : Bytes := [100, 97, 116, 97, 58]

/-- Claim C3, counterexample: the 5-byte binary message "data:" has exactly
the ASCII bytes of "data:" as its first five bytes, so the claim says it is
treated as text and tagged Unrecognized (no data:image start); but the code
requires length greater than 10 for the signature, so this message takes the
raw-binary path: its bytes are counted into bytesReceived and handed to the
encoder, and the recorded status is the raw-buffer success status. -/
theorem claim3_counterexample :
    dataColonSig.take 5 = [100, 97, 116, 97, 58] ∧
    hasDataSig dataColonSig = false ∧
    (ingest cTriv st0 (.binary dataColonSig)).lastFrameType =
      FrameStatus.rawBufferOk Format.png ∧
    (ingest cTriv st0 (.binary dataColonSig)).bytesReceived =
      st0.bytesReceived + 5 ∧
    (ingest cTriv st0 (.binary dataColonSig)).latestFrameBuffer =
      some { bytes := dataColonSig, format := Format.png } := by decide

/-- Claim C3, amended: a textual message, or a binary message LONGER THAN 10
bytes whose first FOUR bytes are the ASCII of "data", is treated as text; a
text-treated message is processed as a data URI exactly when it starts with
"data:image" and otherwise ends in the unknown-format status; every other
binary message takes the raw-binary path, where its bytes go through
unchanged into the transcoder. -/
theorem claim3_theorem (c : Codec) (s : ServerState) (b t : Bytes) :
    (hasDataSig b = true ↔ 10 < b.length ∧ b.take 4 = [100, 97, 116, 97]) ∧
    (ingest c s (.text t) = processDataString c (bumpFrame s) t) ∧
    (hasDataSig b = true →
      ingest c s (.binary b) = processDataString c (bumpFrame s) b) ∧
    (hasDataSig b = false →
      ingest c s (.binary b) =
        processRawBuffer c { bumpFrame s with lastFrameType := .rawBuffer } b) ∧
    (t.take 10 ≠ dataImageSig →
      processDataString c s t = { s with lastFrameType := .unknownFormat }) ∧
    (processRawBuffer c s b).latestFrameBuffer =
      (match encodeToFormat c s.config b with
       | some out => some { bytes := out, format := s.config.outputFormat }
       | none => s.latestFrameBuffer) := by
  refine ⟨hasDataSig_iff b, rfl, ?_, ?_, ?_, ?_⟩
  · intro h
    simp [ingest, h]
  · intro h
    simp [ingest, h]
  · intro h
    simp [processDataString, h]
  · unfold processRawBuffer
    cases encodeToFormat c s.config b <;> rfl

/-- Witness for claim C3 at a concrete input: the 5-byte "data:" message
fails the signature test and takes the raw path. -/
theorem claim3_witness :
    hasDataSig dataColonSig = false ∧
    ingest cTriv st0 (.binary dataColonSig) =
      processRawBuffer cTriv { bumpFrame st0 with lastFrameType := .rawBuffer }
        dataColonSig :=
  ⟨by decide,
    (claim3_theorem cTriv st0 dataColonSig dataColonSig).2.2.2.1 (by decide)⟩

/-- The ASCII bytes of "data:image/png;base64,AAAA" (26 bytes). -/
def msgB64 : Bytes :=
  [100, 97, 116, 97, 58, 105, 109, 97, 103, 101, 47, 112, 110, 103, 59,
   98, 97, 115, 101, 54, 52, 44, 65, 65, 65, 65]

/-- The part of msgB64 before its (first and only) comma. -/
def msgB64head : Bytes :=
  [100, 97, 116, 97, 58, 105, 109, 97, 103, 101, 47, 112, 110, 103, 59,
   98, 97, 115, 101, 54, 52]

/-- A state whose configured ingest ceiling is 5 bytes. -/
def stMax5 : ServerState :=
  { st0 with config := { st0.config with maxFrameSize := 5 } }

/-- A state whose configured ingest ceiling is 10 bytes. -/
def stMax10 : ServerState :=
  { st0 with config := { st0.config with maxFrameSize := 10 } }

/-- A state whose configured ingest ceiling is exactly the msgB64 length. -/
def stMax26 : ServerState :=
  { st0 with config := { st0.config with maxFrameSize := 26 } }

/-- A 6-byte raw binary payload without the data signature. -/
def rawBig : Bytes := [1, 2, 3, 4, 5, 6]

/-- Claim C4, counterexample: the size ceiling does NOT hold for every
payload kind.  With maxFrameSize 5, the 6-byte raw binary payload exceeds the
ceiling, yet the code counts its bytes into bytesReceived, hands it to the
encoder (here it gets stored), and never records the too-large status: raw
binary payloads are not size-checked at all. -/
theorem claim4_counterexample :
    stMax5.config.maxFrameSize < rawBig.length ∧
    (ingest cTriv stMax5 (.binary rawBig)).bytesReceived =
      stMax5.bytesReceived + rawBig.length ∧
    (ingest cTriv stMax5 (.binary rawBig)).lastFrameType ≠
      FrameStatus.frameTooLarge ∧
    (ingest cTriv stMax5 (.binary rawBig)).latestFrameBuffer =
      some { bytes := rawBig, format := Format.png } := by decide

/-- Helper: the base64-body processing never touches bytesReceived. -/
theorem processBase64Body_bytesReceived (c : Codec) (s : ServerState) (ds : Bytes) :
    (processBase64Body c s ds).bytesReceived = s.bytesReceived := by
  unfold processBase64Body
  cases encodeToFormat c s.config (b64decode (extractBase64 ds)) <;> rfl

/-- Helper: the raw-buffer branch always adds the buffer length to
bytesReceived, success or not. -/
theorem processRawBuffer_bytesReceived (c : Codec) (s : ServerState) (b : Bytes) :
    (processRawBuffer c s b).bytesReceived = s.bytesReceived + b.length := by
  unfold processRawBuffer
  cases encodeToFormat c s.config b <;> rfl

/-- Claim C4, amended: the size ceiling applies to data-URI payloads only.
A data-URI payload strictly larger than maxFrameSize is rejected before any
decode (the resulting state records only the distinct too-large status, with
bytesReceived, the store and everything else untouched, independent of the
codec); one of exactly maxFrameSize is accepted and counted.  A raw binary
payload is never size-checked: its length is always added to bytesReceived
and its bytes are always handed to the encoder. -/
theorem claim4_theorem (c : Codec) (s : ServerState) (ds b : Bytes)
    (himg : ds.take 10 = dataImageSig) (hsig : hasDataSig b = false) :
    (s.config.maxFrameSize < ds.length →
      ingest c s (.text ds) =
        { bumpFrame s with lastFrameType := .frameTooLarge }) ∧
    (ds.length ≤ s.config.maxFrameSize →
      (ingest c s (.text ds)).bytesReceived = s.bytesReceived + ds.length) ∧
    (ingest c s (.binary b)).bytesReceived = s.bytesReceived + b.length := by
  refine ⟨?_, ?_, ?_⟩
  · intro hlt
    simp [ingest, processDataString, himg, hlt, bumpFrame]
  · intro hle
    have hstep : ingest c s (.text ds) =
        processBase64Body c
          { bumpFrame s with bytesReceived := s.bytesReceived + ds.length } ds := by
      simp [ingest, processDataString, himg, bumpFrame, Nat.not_lt.mpr hle]
    rw [hstep, processBase64Body_bytesReceived]
  · have hstep : ingest c s (.binary b) =
        processRawBuffer c { bumpFrame s with lastFrameType := .rawBuffer } b := by
      simp [ingest, hsig]
    rw [hstep, processRawBuffer_bytesReceived]
    rfl

/-- Witness for claim C4 at concrete inputs: the 26-byte data URI against
ceilings 10 (rejected) and 26 (accepted at the boundary), and the raw
payload against ceiling 10. -/
theorem claim4_witness :
    msgB64.take 10 = dataImageSig ∧
    hasDataSig rawBig = false ∧
    stMax10.config.maxFrameSize < msgB64.length ∧
    ingest cTriv stMax10 (.text msgB64) =
      { bumpFrame stMax10 with lastFrameType := .frameTooLarge } ∧
    msgB64.length ≤ stMax26.config.maxFrameSize ∧
    (ingest cTriv stMax26 (.text msgB64)).bytesReceived =
      stMax26.bytesReceived + msgB64.length ∧
    (ingest cTriv stMax10 (.binary rawBig)).bytesReceived =
      stMax10.bytesReceived + rawBig.length :=
  ⟨by decide, by decide, by decide,
    (claim4_theorem cTriv stMax10 msgB64 rawBig (by decide) (by decide)).1
      (by decide),
    by decide,
    (claim4_theorem cTriv stMax26 msgB64 rawBig (by decide) (by decide)).2.1
      (by decide),
    (claim4_theorem cTriv stMax10 msgB64 rawBig (by decide) (by decide)).2.2⟩

/-- Helper: a byte string without a comma has no comma to cut at. -/
theorem afterCommaAux_of_not_mem (s : Bytes) (h : 44 ∉ s) :
    afterCommaAux s = none := by
  induction s with
  | nil => rfl
  | cons a t ih =>
    have ha : a ≠ 44 := fun hh => h (hh ▸ List.mem_cons_self a t)
    have ht : 44 ∉ t := fun hh => h (List.mem_cons_of_mem a hh)
    simp [afterCommaAux, ha, ih ht]

/-- Helper: cutting at the first comma of pre ++ comma :: post gives post
when pre is comma-free. -/
theorem afterCommaAux_append (pre post : Bytes) (h : 44 ∉ pre) :
    afterCommaAux (pre ++ 44 :: post) = some post := by
  induction pre with
  | nil => simp [afterCommaAux]
  | cons a t ih =>
    have ha : a ≠ 44 := fun hh => h (hh ▸ List.mem_cons_self a t)
    have ht : 44 ∉ t := fun hh => h (List.mem_cons_of_mem a hh)
    simp [afterCommaAux, ha, ih ht]

/-- Helper: the store update of an in-limit data-URI ingest, characterized:
the encoder runs on the lenient base64 decode of everything after the first
comma (the whole string when there is no comma), storing on success and
leaving the store alone on failure. -/
theorem ingest_dataUri_store (c : Codec) (s : ServerState) (ds : Bytes)
    (himg : ds.take 10 = dataImageSig) (hlen : ds.length ≤ s.config.maxFrameSize) :
    (ingest c s (.text ds)).latestFrameBuffer =
      (match encodeToFormat c s.config (b64decode (extractBase64 ds)) with
       | some out => some { bytes := out, format := s.config.outputFormat }
       | none => s.latestFrameBuffer) := by
  simp only [ingest, processDataString, himg, if_pos rfl, bumpFrame,
    if_neg (Nat.not_lt.mpr hlen)]
  unfold processBase64Body
  cases encodeToFormat c s.config (b64decode (extractBase64 ds)) <;> rfl

/-- The ASCII bytes of "data:image" alone: a data URI without any comma. -/
def msgNoComma : Bytes := dataImageSig

/-- Claim C5, counterexample: a data-URI payload without a comma does NOT
yield a malformed-decode error with no bytes produced.  indexOf gives -1, so
substring(0) is the whole string; the lenient base64 decode of
"data:image" produces 6 bytes of garbage, which are handed to the
transcoder; with an accepting codec a frame is even stored and the status is
the data-URI success status. -/
theorem claim5_counterexample :
    msgNoComma.take 10 = dataImageSig ∧
    44 ∉ msgNoComma ∧
    msgNoComma.length ≤ st0.config.maxFrameSize ∧
    extractBase64 msgNoComma = msgNoComma ∧
    b64decode msgNoComma = [117, 171, 90, 138, 102, 160] ∧
    (ingest cTriv st0 (.text msgNoComma)).lastFrameType =
      FrameStatus.dataUriOk Format.png ∧
    (ingest cTriv st0 (.text msgNoComma)).latestFrameBuffer =
      some { bytes := b64decode msgNoComma, format := Format.png } := by decide

/-- Claim C5, amended: for an in-limit data-URI payload, normalization
base64-decodes everything after the FIRST comma; when there is no comma the
ENTIRE payload (prefix included) is base64-decoded; the decode is lenient
(invalid characters skipped) and never fails, and its result always proceeds
to the transcoder, so malformed payloads surface only as transcoder
conversion errors, never as a separate malformed-decode error. -/
theorem claim5_theorem (c : Codec) (s : ServerState) (ds pre post : Bytes)
    (himg : ds.take 10 = dataImageSig) (hlen : ds.length ≤ s.config.maxFrameSize) :
    (ingest c s (.text ds) =
      processBase64Body c
        { bumpFrame s with bytesReceived := s.bytesReceived + ds.length } ds) ∧
    ((ingest c s (.text ds)).latestFrameBuffer =
      (match encodeToFormat c s.config (b64decode (extractBase64 ds)) with
       | some out => some { bytes := out, format := s.config.outputFormat }
       | none => s.latestFrameBuffer)) ∧
    (44 ∉ ds → extractBase64 ds = ds) ∧
    (ds = pre ++ 44 :: post → 44 ∉ pre → extractBase64 ds = post) := by
  refine ⟨?_, ingest_dataUri_store c s ds himg hlen, ?_, ?_⟩
  · simp [ingest, processDataString, himg, bumpFrame, Nat.not_lt.mpr hlen]
  · intro h
    simp [extractBase64, afterCommaAux_of_not_mem ds h]
  · intro hds h
    simp [extractBase64, hds, afterCommaAux_append pre post h]

/-- Witness for claim C5 at a concrete input: the 26-byte data URI, whose
first comma separates msgB64head from the four base64 characters. -/
theorem claim5_witness :
    msgB64.take 10 = dataImageSig ∧
    msgB64.length ≤ st0.config.maxFrameSize ∧
    msgB64 = msgB64head ++ 44 :: [65, 65, 65, 65] ∧
    44 ∉ msgB64head ∧
    extractBase64 msgB64 = [65, 65, 65, 65] ∧
    ingest cTriv st0 (.text msgB64) =
      processBase64Body cTriv
        { bumpFrame st0 with bytesReceived := st0.bytesReceived + msgB64.length }
        msgB64 :=
  ⟨by decide, by decide, by decide, by decide,
    (claim5_theorem cTriv st0 msgB64 msgB64head [65, 65, 65, 65] (by decide)
        (by decide)).2.2.2 (by decide) (by decide),
    (claim5_theorem cTriv st0 msgB64 msgB64head [65, 65, 65, 65] (by decide)
        (by decide)).1⟩

/-- Claim C2: an in-limit data-URI ingest encodes into the configured
outputFormat: the stored frame (when the encode succeeds) carries that
format; the png path uses the fixed compressionLevel 6 and never looks at
the configured quality (so the stored result is independent of it), while
the webp and jpeg paths hand the configured quality to the encoder. -/
theorem claim2_theorem (c : Codec) (s : ServerState) (ds : Bytes) (q : Int)
    (himg : ds.take 10 = dataImageSig) (hlen : ds.length ≤ s.config.maxFrameSize) :
    ((ingest c s (.text ds)).latestFrameBuffer =
      (match encodeToFormat c s.config (b64decode (extractBase64 ds)) with
       | some out => some { bytes := out, format := s.config.outputFormat }
       | none => s.latestFrameBuffer)) ∧
    (s.config.outputFormat = .png →
      encodeToFormat c s.config (b64decode (extractBase64 ds)) =
        c.encPng (b64decode (extractBase64 ds)) 6) ∧
    (s.config.outputFormat = .webp →
      encodeToFormat c s.config (b64decode (extractBase64 ds)) =
        c.encWebp (b64decode (extractBase64 ds)) s.config.quality) ∧
    (s.config.outputFormat = .jpeg →
      encodeToFormat c s.config (b64decode (extractBase64 ds)) =
        c.encJpeg (b64decode (extractBase64 ds)) s.config.quality) ∧
    (s.config.outputFormat = .png →
      (ingest c { s with config := { s.config with quality := q } }
          (.text ds)).latestFrameBuffer =
        (ingest c s (.text ds)).latestFrameBuffer) := by
  refine ⟨ingest_dataUri_store c s ds himg hlen, ?_, ?_, ?_, ?_⟩
  · intro h
    simp [encodeToFormat, h]
  · intro h
    simp [encodeToFormat, h]
  · intro h
    simp [encodeToFormat, h]
  · intro h
    rw [ingest_dataUri_store c { s with config := { s.config with quality := q } }
        ds himg hlen,
      ingest_dataUri_store c s ds himg hlen]
    simp [encodeToFormat, h]

/-- Witness for claim C2 at a concrete input: the 26-byte data URI against
the default png configuration, with 17 as the alternative quality. -/
theorem claim2_witness :
    msgB64.take 10 = dataImageSig ∧
    msgB64.length ≤ st0.config.maxFrameSize ∧
    ((ingest cTriv st0 (.text msgB64)).latestFrameBuffer =
      (match encodeToFormat cTriv st0.config (b64decode (extractBase64 msgB64)) with
       | some out => some { bytes := out, format := st0.config.outputFormat }
       | none => st0.latestFrameBuffer)) ∧
    (encodeToFormat cTriv st0.config (b64decode (extractBase64 msgB64)) =
      cTriv.encPng (b64decode (extractBase64 msgB64)) 6) ∧
    ((ingest cTriv { st0 with config := { st0.config with quality := 17 } }
        (.text msgB64)).latestFrameBuffer =
      (ingest cTriv st0 (.text msgB64)).latestFrameBuffer) :=
  ⟨by decide, by decide,
    (claim2_theorem cTriv st0 msgB64 17 (by decide) (by decide)).1,
    (claim2_theorem cTriv st0 msgB64 17 (by decide) (by decide)).2.1 (by decide),
    (claim2_theorem cTriv st0 msgB64 17 (by decide) (by decide)).2.2.2.2
      (by decide)⟩

/-- Helper: a name outside the allowed set parses to no format. -/
theorem formatOfParam_not_mem (f : String) (h : f ∉ validFormatNames) :
    formatOfParam f = none := by
  unfold formatOfParam
  split <;> simp_all [validFormatNames]

/-- Helper: what the format merge does to the outputFormat field. -/
theorem mergeFormat_outputFormat (cfg : Config) (o : Option String) :
    (mergeFormat cfg o).outputFormat =
      (match o with
       | some f =>
         match formatOfParam f with
         | some fmt => fmt
         | none => cfg.outputFormat
       | none => cfg.outputFormat) := by
  cases o with
  | none => rfl
  | some f =>
    by_cases hmem : f ∈ validFormatNames
    · rcases (by simpa [validFormatNames] using hmem :
          f = "png" ∨ f = "webp" ∨ f = "jpeg") with h | h | h <;>
        subst h <;> simp [mergeFormat, validFormatNames, formatOfParam]
    · simp [mergeFormat, hmem, formatOfParam_not_mem f hmem]

/-- Helper: the format merge never touches the quality field. -/
theorem mergeFormat_quality (cfg : Config) (o : Option String) :
    (mergeFormat cfg o).quality = cfg.quality := by
  cases o with
  | none => rfl
  | some f =>
    by_cases h : f ≠ "" ∧ f ∈ validFormatNames <;> simp [mergeFormat, h]

/-- Helper: the format merge never touches the maxFrameSize field. -/
theorem mergeFormat_maxFrameSize (cfg : Config) (o : Option String) :
    (mergeFormat cfg o).maxFrameSize = cfg.maxFrameSize := by
  cases o with
  | none => rfl
  | some f =>
    by_cases h : f ≠ "" ∧ f ∈ validFormatNames <;> simp [mergeFormat, h]

/-- Helper: what the quality merge does to the quality field (the JavaScript
truthiness guard is subsumed by the lower bound). -/
theorem mergeQuality_quality (cfg : Config) (o : Option Int) :
    (mergeQuality cfg o).quality =
      (match o with
       | some q => if 10 ≤ q ∧ q ≤ 100 then q else cfg.quality
       | none => cfg.quality) := by
  cases o with
  | none => rfl
  | some q =>
    by_cases h : 10 ≤ q ∧ q ≤ 100
    · have hq : q ≠ 0 := by omega
      simp [mergeQuality, h, hq]
    · have hfull : ¬(q ≠ 0 ∧ 10 ≤ q ∧ q ≤ 100) := by tauto
      simp [mergeQuality, h, hfull]

/-- Helper: the quality merge never touches the outputFormat field. -/
theorem mergeQuality_outputFormat (cfg : Config) (o : Option Int) :
    (mergeQuality cfg o).outputFormat = cfg.outputFormat := by
  cases o with
  | none => rfl
  | some q =>
    by_cases h : q ≠ 0 ∧ 10 ≤ q ∧ q ≤ 100 <;> simp [mergeQuality, h]

/-- Helper: the quality merge never touches the maxFrameSize field. -/
theorem mergeQuality_maxFrameSize (cfg : Config) (o : Option Int) :
    (mergeQuality cfg o).maxFrameSize = cfg.maxFrameSize := by
  cases o with
  | none => rfl
  | some q =>
    by_cases h : q ≠ 0 ∧ 10 ≤ q ∧ q ≤ 100 <;> simp [mergeQuality, h]

/-- Claim C7: POST /config validates each field independently — the stored
outputFormat becomes the requested one exactly when it names an allowed
format and is otherwise unchanged; the stored quality becomes the requested
one exactly when it lies in [10, 100] and is otherwise unchanged; the
ceiling field is untouched; and the response echoes the configuration after
the merge. -/
theorem claim7_theorem (s : ServerState) (b : ConfigBody) :
    (postConfig s b).2 = (postConfig s b).1.config ∧
    (postConfig s b).1.config.outputFormat =
      (match b.outputFormat with
       | some f =>
         match formatOfParam f with
         | some fmt => fmt
         | none => s.config.outputFormat
       | none => s.config.outputFormat) ∧
    (postConfig s b).1.config.quality =
      (match b.quality with
       | some q => if 10 ≤ q ∧ q ≤ 100 then q else s.config.quality
       | none => s.config.quality) ∧
    (postConfig s b).1.config.maxFrameSize = s.config.maxFrameSize ∧
    (postConfig s b).1.latestFrameBuffer = s.latestFrameBuffer := by
  refine ⟨rfl, ?_, ?_, ?_, rfl⟩
  · show (mergeQuality (mergeFormat s.config b.outputFormat) b.quality).outputFormat = _
    rw [mergeQuality_outputFormat, mergeFormat_outputFormat]
  · show (mergeQuality (mergeFormat s.config b.outputFormat) b.quality).quality = _
    rw [mergeQuality_quality, mergeFormat_quality]
  · show (mergeQuality (mergeFormat s.config b.outputFormat) b.quality).maxFrameSize = _
    rw [mergeQuality_maxFrameSize, mergeFormat_maxFrameSize]

/-- Claim C8, counterexample: POST /clear does NOT leave everything except
the store and the two counters alone — it also rewrites the last-frame
status text.  On the initial state (status "waiting...") the cleared state
differs from the state with only the store and counters reset. -/
theorem claim8_counterexample :
    postClear st0 ≠
      { st0 with latestFrameBuffer := none, frameCount := 0, bytesReceived := 0 } := by
  decide

/-- Claim C8, amended: POST /clear empties the store, zeroes frameCount and
bytesReceived, and sets the status text to the buffer-cleared marker; every
other field — connectionErrors, the client gauge, the start time, the
configuration — is unchanged, and clearing twice equals clearing once. -/
theorem claim8_theorem (s : ServerState) :
    postClear s =
      { s with
        latestFrameBuffer := none, frameCount := 0, bytesReceived := 0,
        lastFrameType := FrameStatus.bufferCleared } ∧
    postClear (postClear s) = postClear s ∧
    (postClear s).connectionErrors = s.connectionErrors ∧
    (postClear s).clientCount = s.clientCount ∧
    (postClear s).serverStartTime = s.serverStartTime ∧
    (postClear s).config = s.config :=
  ⟨rfl, rfl, rfl, rfl, rfl, rfl⟩

/-- Helper: the base64-body processing never touches frameCount. -/
theorem processBase64Body_frameCount (c : Codec) (s : ServerState) (ds : Bytes) :
    (processBase64Body c s ds).frameCount = s.frameCount := by
  unfold processBase64Body
  cases encodeToFormat c s.config (b64decode (extractBase64 ds)) <;> rfl

/-- Helper: the base64-body processing never touches connectionErrors. -/
theorem processBase64Body_connErrors (c : Codec) (s : ServerState) (ds : Bytes) :
    (processBase64Body c s ds).connectionErrors = s.connectionErrors := by
  unfold processBase64Body
  cases encodeToFormat c s.config (b64decode (extractBase64 ds)) <;> rfl

/-- Helper: the raw-buffer branch never touches frameCount. -/
theorem processRawBuffer_frameCount (c : Codec) (s : ServerState) (b : Bytes) :
    (processRawBuffer c s b).frameCount = s.frameCount := by
  unfold processRawBuffer
  cases encodeToFormat c s.config b <;> rfl

/-- Helper: the raw-buffer branch never touches connectionErrors. -/
theorem processRawBuffer_connErrors (c : Codec) (s : ServerState) (b : Bytes) :
    (processRawBuffer c s b).connectionErrors = s.connectionErrors := by
  unfold processRawBuffer
  cases encodeToFormat c s.config b <;> rfl

/-- Helper: the data-string branch never touches frameCount. -/
theorem processDataString_frameCount (c : Codec) (s : ServerState) (ds : Bytes) :
    (processDataString c s ds).frameCount = s.frameCount := by
  unfold processDataString
  split
  · split
    · rfl
    · rw [processBase64Body_frameCount]
  · rfl

/-- Helper: the data-string branch never lowers bytesReceived. -/
theorem processDataString_bytes (c : Codec) (s : ServerState) (ds : Bytes) :
    s.bytesReceived ≤ (processDataString c s ds).bytesReceived := by
  unfold processDataString
  split
  · split
    · exact le_refl _
    · rw [processBase64Body_bytesReceived]
      exact Nat.le_add_right _ _
  · exact le_refl _

/-- Helper: the data-string branch never touches connectionErrors. -/
theorem processDataString_connErrors (c : Codec) (s : ServerState) (ds : Bytes) :
    (processDataString c s ds).connectionErrors = s.connectionErrors := by
  unfold processDataString
  split
  · split
    · rfl
    · rw [processBase64Body_connErrors]
  · rfl

/-- Helper: every ingest adds exactly one to frameCount. -/
theorem ingest_frameCount (c : Codec) (s : ServerState) (m : RawMessage) :
    (ingest c s m).frameCount = s.frameCount + 1 := by
  cases m with
  | text ds =>
    have h := processDataString_frameCount c (bumpFrame s) ds
    simp only [ingest]
    simp only [bumpFrame] at h ⊢
    omega
  | binary b =>
    simp only [ingest]
    split
    · have h := processDataString_frameCount c (bumpFrame s) b
      simp only [bumpFrame] at h ⊢
      omega
    · have h := processRawBuffer_frameCount c
        { bumpFrame s with lastFrameType := .rawBuffer } b
      simp only [bumpFrame] at h ⊢
      omega

/-- Helper: no ingest lowers bytesReceived. -/
theorem ingest_bytes (c : Codec) (s : ServerState) (m : RawMessage) :
    s.bytesReceived ≤ (ingest c s m).bytesReceived := by
  cases m with
  | text ds =>
    have h := processDataString_bytes c (bumpFrame s) ds
    simp only [ingest]
    simp only [bumpFrame] at h ⊢
    omega
  | binary b =>
    simp only [ingest]
    split
    · have h := processDataString_bytes c (bumpFrame s) b
      simp only [bumpFrame] at h ⊢
      omega
    · have h := processRawBuffer_bytesReceived c
        { bumpFrame s with lastFrameType := .rawBuffer } b
      simp only [bumpFrame] at h ⊢
      omega

/-- Helper: no ingest touches connectionErrors. -/
theorem ingest_connErrors (c : Codec) (s : ServerState) (m : RawMessage) :
    (ingest c s m).connectionErrors = s.connectionErrors := by
  cases m with
  | text ds =>
    have h := processDataString_connErrors c (bumpFrame s) ds
    simp only [ingest]
    simp only [bumpFrame] at h ⊢
    omega
  | binary b =>
    simp only [ingest]
    split
    · have h := processDataString_connErrors c (bumpFrame s) b
      simp only [bumpFrame] at h ⊢
      omega
    · have h := processRawBuffer_connErrors c
        { bumpFrame s with lastFrameType := .rawBuffer } b
      simp only [bumpFrame] at h ⊢
      omega

/-- Claim C9: framesReceived, bytesReceived and connectionErrors never
decrease under any operation other than the explicit clear, and
connectionErrors never decreases under any operation at all, clear
included. -/
theorem claim9_theorem (c : Codec) (s : ServerState) (op : Op) :
    (op ≠ Op.clear →
      s.frameCount ≤ (applyOp c s op).frameCount ∧
      s.bytesReceived ≤ (applyOp c s op).bytesReceived ∧
      s.connectionErrors ≤ (applyOp c s op).connectionErrors) ∧
    s.connectionErrors ≤ (applyOp c s op).connectionErrors := by
  cases op with
  | message m =>
    have h1 := ingest_frameCount c s m
    have h2 := ingest_bytes c s m
    have h3 := ingest_connErrors c s m
    simp only [applyOp]
    exact ⟨fun _ => ⟨by omega, h2, by omega⟩, by omega⟩
  | clear => exact ⟨fun h => absurd rfl h, le_refl _⟩
  | config b => exact ⟨fun _ => ⟨le_refl _, le_refl _, le_refl _⟩, le_refl _⟩
  | connect => exact ⟨fun _ => ⟨le_refl _, le_refl _, le_refl _⟩, le_refl _⟩
  | disconnect => exact ⟨fun _ => ⟨le_refl _, le_refl _, le_refl _⟩, le_refl _⟩
  | wsError =>
    exact ⟨fun _ => ⟨le_refl _, le_refl _, Nat.le_succ _⟩, Nat.le_succ _⟩

/-- Witness for claim C9 at a concrete operation: the transport-error step
is not the clear operation and leaves the monotone counters no smaller. -/
theorem claim9_witness :
    Op.wsError ≠ Op.clear ∧
    (st0.frameCount ≤ (applyOp cTriv st0 Op.wsError).frameCount ∧
      st0.bytesReceived ≤ (applyOp cTriv st0 Op.wsError).bytesReceived ∧
      st0.connectionErrors ≤ (applyOp cTriv st0 Op.wsError).connectionErrors) ∧
    st0.connectionErrors ≤ (applyOp cTriv st0 Op.wsError).connectionErrors :=
  ⟨by decide, (claim9_theorem cTriv st0 Op.wsError).1 (by decide),
    (claim9_theorem cTriv st0 Op.wsError).2⟩

end FrameServer
